import Mathlib

/-!
Verification development for the rasa core runtime decision pipeline:
the entity/intent grammar parser and the interpreter implementations of
rasa/core/interpreter.py, the interpreter factory, and the mapping
decision policy of rasa/core/policies/mapping_policy.py.

The Python source is shallowly embedded: pure functions become Lean
functions on lists of code points; the standard json decoder and the
network transport, which are external to the repository, enter the
embedding as explicit oracle arguments; raised Python exceptions are
modelled with Except; logger.warning calls are modelled as a returned
list of warning strings (logger.debug calls are not observable here).
-/

/-- JSON values as decoded by the standard json module.  The decoder
itself (json.loads) is outside the repository and is passed to the
embedded functions as an oracle of type String → Option JsonValue,
where none models a raised decode exception. -/
inductive JsonValue where
  | null
  | bool (b : Bool)
  | num (q : ℚ)
  | str (s : String)
  | arr (elems : List JsonValue)
  | obj (pairs : List (String × JsonValue))

/-- Whether a decoded JSON value is an object (a Python dict). -/
def JsonValue.isObj : JsonValue → Bool
  | .obj _ => true
  | _ => false

/-- The value list of a decoded entity value: a JSON list is taken as
is, every other value is wrapped as a singleton (the isinstance check
of _create_entities). -/
def jsonValueList : JsonValue → List JsonValue
  | JsonValue.arr xs => xs
  | v => [v]

/-- Python default whitespace for str.strip (the ASCII part; the inputs
appearing in this development contain no other whitespace). -/
def pyIsSpace (c : Char) : Bool :=
  c == ' ' || c == '\t' || c == '\n' || c == '\r' || c == '\x0b' || c == '\x0c'

/-- Python str.strip() on a list of code points. -/
def pyStripChars (cs : List Char) : List Char :=
  ((cs.dropWhile pyIsSpace).reverse.dropWhile pyIsSpace).reverse

/-- Value of a list of decimal digit characters read in base 10. -/
def digitsToNat (cs : List Char) : Nat :=
  cs.foldl (fun acc c => acc * 10 + (c.toNat - 48)) 0

/-- Decimal value of a digits-and-dots literal with at most one dot. -/
def ratOfDigitsDots (cs : List Char) : ℚ :=
  let intPart := cs.takeWhile (fun c => !(c == '.'))
  let fracPart := (cs.dropWhile (fun c => !(c == '.'))).drop 1
  (digitsToNat intPart : ℚ) + (digitsToNat fracPart : ℚ) / ((10 : ℚ) ^ fracPart.length)

/-- Whether Python float() accepts a string drawn from the alphabet of
digits and dots: at least one digit and at most one dot. -/
def validPyFloat (cs : List Char) : Bool :=
  cs.all (fun c => c.isDigit || c == '.') && cs.any (fun c => c.isDigit) &&
    decide (cs.countP (fun c => c == '.') ≤ 1)

/-- Python float() restricted to the strings that can reach it here:
the confidence capture group only produces characters matched by the
class of digits and dots, on which float() succeeds exactly when there
is at least one digit and at most one dot, yielding the decimal value. -/
def pyFloatChars (cs : List Char) : Option ℚ :=
  if validPyFloat cs then some (ratOfDigitsDots cs) else none

/-- Modelled from the spec: the designated intent message prefix
character set (rasa/core/constants.py is not under src/); the spec calls
it the intent prefix used by the grammar input format, e.g. /greet. -/
def INTENT_MESSAGE_PREFIX : String := "/"

/-- A character the intent part of the grammar cannot contain: the
negated character class excluding the opening brace and the at sign. -/
def intentBreakChar (c : Char) : Bool :=
  c == '\x7b' || c == '@'

/-- A character of the confidence class of digits and dots. -/
def confChar (c : Char) : Bool :=
  c.isDigit || c == '.'

/-- The three capture groups of the anchored grammar pattern, with the
entity group carrying its start and end offsets in the original line. -/
structure MatchGroups where
  group1 : List Char
  group2 : Option (List Char)
  group3 : Option (List Char × Nat × Nat)

/-- The optional confidence group: at the given offset, an at sign
followed greedily by one or more digits or dots; returns the group (if
it participates) and the offset where matching continues. -/
def matchGroup2 (full : List Char) (pos1 : Nat) : Option (List Char) × Nat :=
  match full.drop pos1 with
  | '@' :: t =>
    let ds := t.takeWhile confChar
    if ds.isEmpty then (none, pos1) else (some ('@' :: ds), pos1 + 1 + ds.length)
  | _ => (none, pos1)

/-- The optional entity group: at the given offset, an opening brace
followed greedily by one or more characters other than a newline;
returns the matched text with its start and end offsets. -/
def matchGroup3 (full : List Char) (pos2 : Nat) : Option (List Char × Nat × Nat) :=
  match full.drop pos2 with
  | [] => none
  | c :: t =>
    if c == '\x7b' then
      let body := t.takeWhile (fun ch => !(ch == '\n'))
      if body.isEmpty then none else some ('\x7b' :: body, pos2, pos2 + 1 + body.length)
    else none

/-- The grammar pattern after the optional prefix: a mandatory greedy
intent part (one or more characters outside the break class) followed by
the independent optional confidence and entity groups. -/
def matchCore (full : List Char) (pos : Nat) : Option MatchGroups :=
  let g1 := (full.drop pos).takeWhile (fun c => !intentBreakChar c)
  if g1.isEmpty then none
  else
    let p := matchGroup2 full (pos + g1.length)
    some ⟨g1, p.1, matchGroup3 full p.2⟩

/-- The anchored search of the full grammar pattern: the greedy optional
prefix character class is tried first and given back when the mandatory
intent part cannot match after it. -/
def regexSearch (input : List Char) : Option MatchGroups :=
  match input with
  | c :: _ =>
    if INTENT_MESSAGE_PREFIX.toList.contains c then
      match matchCore input 1 with
      | some r => some r
      | none => matchCore input 0
    else matchCore input 0
  | [] => none

/-- An extracted entity: rasa/core/interpreter.py _create_entities
builds one dict per key and value with the shared span offsets. -/
structure Entity where
  entity : String
  start : Int
  end_ : Int
  value : JsonValue

namespace RegexInterpreter

/-- rasa/core/interpreter.py RegexInterpreter.allowed_prefixes. -/
def allowed_prefixes : String := INTENT_MESSAGE_PREFIX

/-- rasa/core/interpreter.py RegexInterpreter._create_entities: each
key of the decoded object yields one entity per value (a non-list value
is wrapped as a singleton), all sharing the group offsets. -/
def _create_entities (parsed_entities : List (String × JsonValue)) (sidx eidx : Int) :
    List Entity :=
  parsed_entities.flatMap (fun kv =>
    (jsonValueList kv.2).map (fun value => ⟨kv.1, sidx, eidx, value⟩))

/-- Warning text logged when the entity text cannot be decoded as a
JSON object. -/
def invalid_parameters_warning : String :=
  "Invalid to parse arguments in line. Failed to decode parameters as a json object."

/-- rasa/core/interpreter.py RegexInterpreter._parse_parameters: no
entity text yields no entities; undecodable entity text or a decoded
non-object both degrade to no entities with a logged warning. -/
def _parse_parameters (loads : String → Option JsonValue) (entity_str : Option String)
    (sidx eidx : Int) (user_input : String) : List Entity × List String :=
  match entity_str with
  | none => ([], [])
  | some s =>
    if pyStripChars s.toList = [] then ([], [])
    else
      match loads s with
      | some (JsonValue.obj kvs) => ( _create_entities kvs sidx eidx, [])
      | some _ => ([], [invalid_parameters_warning])
      | none => ([], [invalid_parameters_warning])

/-- Warning text logged when the confidence text does not parse. -/
def invalid_confidence_warning : String :=
  "Invalid to parse confidence value in line. Make sure the intent confidence is an at sign followed by a decimal number."

/-- rasa/core/interpreter.py RegexInterpreter._parse_confidence: an
absent group defaults to 1.0; a failed float() of the stripped text
minus its leading at sign degrades to 0.0 with a logged warning. -/
def _parse_confidence (confidence_str : Option String) : ℚ × List String :=
  match confidence_str with
  | none => (1, [])
  | some s =>
    match pyFloatChars ((pyStripChars s.toList).drop 1) with
    | some v => (v, [])
    | none => (0, [invalid_confidence_warning])

/-- Warning text logged when the whole line fails to match. -/
def failed_match_warning : String :=
  "Failed to parse intent end entities."

/-- rasa/core/interpreter.py RegexInterpreter.extract_intent_and_entities:
run the anchored pattern; on a match, strip the intent part and parse
the optional confidence and entity groups independently; on no match,
degrade to a null intent with confidence 0.0 and no entities. -/
def extract_intent_and_entities (loads : String → Option JsonValue) (user_input : String) :
    (Option String × ℚ × List Entity) × List String :=
  match regexSearch user_input.toList with
  | some m =>
    let event_name := String.mk (pyStripChars m.group1)
    let c := _parse_confidence (m.group2.map String.mk)
    let e :=
      match m.group3 with
      | some g => _parse_parameters loads (some (String.mk g.1))
          (Int.ofNat g.2.1) (Int.ofNat g.2.2) user_input
      | none => _parse_parameters loads none (-1) (-1) user_input
    ((some event_name, c.1, e.1), c.2 ++ e.2)
  | none => ((none, 0, []), [failed_match_warning])

/-- rasa/core/interpreter.py RegexInterpreter._starts_with_intent_prefix:
Python any of text.startswith(c) over the allowed prefix characters,
with str.startswith modelled as a code point prefix test. -/
def _starts_with_intent_prefix (text : String) : Bool :=
  allowed_prefixes.toList.any (fun c => List.isPrefixOf [c] text.toList)

/-- The intent dict of a parsed message. -/
structure IntentDict where
  name : Option String
  confidence : ℚ

/-- The dict returned by the interpreter parse methods. -/
structure ParsedMessage where
  text : String
  intent : IntentDict
  intent_ranking : List IntentDict
  entities : List Entity

/-- rasa/core/interpreter.py RegexInterpreter.parse: extract intent and
entities, normalize the message text by prepending the intent prefix
unless the raw text already starts with one, and build the message dict
with a singleton intent ranking. -/
def parse (loads : String → Option JsonValue) (text : String) : ParsedMessage × List String :=
  let r := extract_intent_and_entities loads text
  let message_text :=
    if _starts_with_intent_prefix text then text else INTENT_MESSAGE_PREFIX ++ text
  (⟨message_text, ⟨r.1.1, r.1.2.1⟩, [⟨r.1.1, r.1.2.1⟩], r.1.2.2⟩, r.2)

end RegexInterpreter

namespace RasaNLUHttpInterpreter

/-- The observable outcome of the single aiohttp POST performed by
_rasa_http_parse: either the server responded and its body decoded as
JSON, or some transport or decode exception was raised.  The transport
is external to the repository and enters the embedding as this oracle. -/
inductive HttpOutcome where
  | response (status : Nat) (body : JsonValue)
  | exception

/-- rasa/core/interpreter.py RasaNLUHttpInterpreter.parse: the fixed
default dict substituted when the remote parse fails. -/
def default_return : JsonValue :=
  JsonValue.obj
    [(("intent"), JsonValue.obj [(("name"), JsonValue.str ""), (("confidence"), JsonValue.num 0)]),
     (("entities"), JsonValue.arr []),
     (("text"), JsonValue.str "")]

/-- The Python value of a decoded 200 body: the JSON literal null
decodes to Python None, which the caller cannot distinguish from the
failure sentinel that _rasa_http_parse returns on errors. -/
def pyValueOfBody : JsonValue → Option JsonValue
  | JsonValue.null => none
  | v => some v

/-- rasa/core/interpreter.py RasaNLUHttpInterpreter._rasa_http_parse:
returns the decoded body of a 200 response — Python None when that
body is the JSON literal null — and None on any other status or on any
raised exception (both are caught and logged). -/
def _rasa_http_parse (o : HttpOutcome) : Option JsonValue :=
  match o with
  | HttpOutcome.response status body => if status == 200 then pyValueOfBody body else none
  | HttpOutcome.exception => none

/-- rasa/core/interpreter.py RasaNLUHttpInterpreter.parse: substitute
the fixed default when _rasa_http_parse reports failure; the function is
total, so no transport exception escapes. -/
def parse (o : HttpOutcome) : JsonValue :=
  match _rasa_http_parse o with
  | some result => result
  | none => default_return

end RasaNLUHttpInterpreter

/-- An endpoint configuration for the remote NLU server. -/
structure EndpointConfig where
  url : String

/-- The concrete interpreters the factory can return. -/
inductive Interpreter where
  | regexInterpreter
  | rasaNLUInterpreter (model_directory : String)
  | rasaNLUHttpInterpreter (endpoint : EndpointConfig)

/-- The argument the factory receives: an existing interpreter
instance, a string naming a model location, Python None, or some other
non-string non-interpreter object. -/
inductive CreateArg where
  | interpreter (i : Interpreter)
  | str (s : String)
  | pyNone
  | otherValue

namespace NaturalLanguageInterpreter

/-- Warning text logged when the factory argument is a non-null
non-string non-interpreter object. -/
def non_string_warning : String :=
  "Tried to create NLU interpreter from an object, which is not possible. Using RegexInterpreter instead."

/-- Warning text logged when no local NLU model exists at the path. -/
def no_local_model_warning : String :=
  "No local NLU model found. Using RegexInterpreter instead."

/-- rasa/core/interpreter.py NaturalLanguageInterpreter.create: return
an interpreter instance unchanged; fall back to the RegexInterpreter
for non-strings (warning iff the argument was non-null); for a string
with no endpoint, use a local model if the path exists on disk (the
filesystem is external and enters as the path_exists oracle), else the
RegexInterpreter with a warning; with an endpoint, the http interpreter. -/
def create (obj : CreateArg) (endpoint : Option EndpointConfig)
    (path_exists : String → Bool) : Interpreter × List String :=
  match obj with
  | CreateArg.interpreter i => (i, [])
  | CreateArg.pyNone => (Interpreter.regexInterpreter, [])
  | CreateArg.otherValue => (Interpreter.regexInterpreter, [non_string_warning])
  | CreateArg.str s =>
    match endpoint with
    | none =>
      if path_exists s then (Interpreter.rasaNLUInterpreter s, [])
      else (Interpreter.regexInterpreter, [no_local_model_warning])
    | some e => (Interpreter.rasaNLUHttpInterpreter e, [])

end NaturalLanguageInterpreter

/-- Modelled from the spec: the built-in listen sentinel action name
(rasa/core/actions/action.py is not under src/). -/
def ACTION_LISTEN_NAME : String := "action_listen"

/-- Modelled from the spec: the built-in restart action name. -/
def ACTION_RESTART_NAME : String := "action_restart"

/-- Modelled from the spec: the built-in back action name. -/
def ACTION_BACK_NAME : String := "action_back"

/-- Modelled from the spec: the built-in restart intent name
(rasa/core/constants.py is not under src/). -/
def USER_INTENT_RESTART : String := "restart"

/-- Modelled from the spec: the built-in back intent name. -/
def USER_INTENT_BACK : String := "back"

/-- rasa/core/events.py ActionExecuted, as read by the policy: the
executed action name and the attributed policy name, which the event
may lack (Python None). -/
structure ActionExecuted where
  action_name : String
  policy : Option String

/-- Modelled from the spec: the tracker read interface used by the
policy (rasa/core/trackers.py is not under src/): the intent name of
the latest user message (absence of a recognized intent is a null
name), and the most recent ActionExecuted event, if any. -/
structure Tracker where
  latest_message_intent_name : Option String
  last_action_executed : Option ActionExecuted

/-- Modelled from the spec: latest_action_name is the action name of
the most recent ActionExecuted event, or the listen sentinel if none. -/
def Tracker.latest_action_name (t : Tracker) : String :=
  match t.last_action_executed with
  | none => ACTION_LISTEN_NAME
  | some e => e.action_name

/-- Modelled from the spec: the domain metadata the policy reads: the
ordered action names (index equals probability vector position) and the
mapping from intent name to its optional triggered action name. -/
structure Domain where
  action_names : List String
  intent_triggers : List (String × String)

/-- The number of actions, the length of the probability vector. -/
def Domain.num_actions (d : Domain) : Nat := d.action_names.length

/-- Modelled from the spec: index_for_action resolves an action name to
its index in action_names, or None when the action is unknown. -/
def Domain.index_for_action (d : Domain) (a : String) : Option Nat :=
  d.action_names.findIdx? (fun n => n == a)

/-- domain.intent_properties.get(intent, dict()).get(str triggers): the
triggered action configured for the intent, if any; a null intent has
no entry. -/
def Domain.triggers_for (d : Domain) (intent : Option String) : Option String :=
  match intent with
  | none => none
  | some i => (d.intent_triggers.find? (fun p => p.1 == i)).map Prod.snd

/-- Python truthiness of an optional string: None and the empty string
are falsy. -/
def pyTruthy : Option String → Bool
  | none => false
  | some s => !(s == "")

/-- Python str.endswith modelled as a code point suffix test. -/
def pyEndsWith (s suffix : String) : Bool :=
  List.isSuffixOf suffix.toList s.toList

namespace MappingPolicy

/-- type(self).__name__ for the MappingPolicy class itself. -/
def MAPPING_POLICY_NAME : String := "MappingPolicy"

/-- Warning text logged when the mapped action has no index. -/
def unknown_action_warning : String :=
  "MappingPolicy tried to predict unknown action."

/-- rasa/core/policies/mapping_policy.py lines 82-88: resolve the
action mapped to the latest intent: the built-in restart and back
intents map to their fixed built-in actions, every other intent to the
triggers entry of the domain, which may be absent. -/
def mapped_action (d : Domain) (intent : Option String) : Option String :=
  if intent = some USER_INTENT_RESTART then some ACTION_RESTART_NAME
  else if intent = some USER_INTENT_BACK then some ACTION_BACK_NAME
  else d.triggers_for intent

/-- rasa/core/policies/mapping_policy.py
MappingPolicy.predict_action_probabilities.  The result pairs the
probability vector with the logged warnings; Except.error models a
raised Python exception: the AttributeError of calling endswith on a
None policy attribution, the AssertionError of the action name check,
and the TypeError of indexing the prediction list with None when the
listen action has no index. -/
def predict_action_probabilities (t : Tracker) (d : Domain) :
    Except String (List ℚ × List String) :=
  let prediction : List ℚ := List.replicate d.num_actions 0
  let intent := t.latest_message_intent_name
  let action := mapped_action d intent
  if t.latest_action_name = ACTION_LISTEN_NAME then
    if pyTruthy action then
      match d.index_for_action (action.getD "") with
      | none => Except.ok (prediction, [unknown_action_warning])
      | some idx => Except.ok (prediction.set idx 1, [])
    else Except.ok (prediction, [])
  else if action = some t.latest_action_name then
    match t.last_action_executed with
    | none => Except.error ("AttributeError: NoneType has no attribute action_name")
    | some latest_action =>
      if latest_action.action_name ≠ action.getD "" then
        Except.error ("AssertionError")
      else if latest_action.policy = some MAPPING_POLICY_NAME then
        match d.index_for_action ACTION_LISTEN_NAME with
        | none => Except.error ("TypeError: list indices must be integers")
        | some idx => Except.ok (prediction.set idx 1, [])
      else
        match latest_action.policy with
        | none => Except.error ("AttributeError: NoneType has no attribute endswith")
        | some p =>
          if pyEndsWith p (String.append ("_") MAPPING_POLICY_NAME) then
            match d.index_for_action ACTION_LISTEN_NAME with
            | none => Except.error ("TypeError: list indices must be integers")
            | some idx => Except.ok (prediction.set idx 1, [])
          else Except.ok (prediction, [])
  else Except.ok (prediction, [])

end MappingPolicy

/-! ## Supporting lemmas -/

/-- A participating entity group starts at its reported offset, ends
after exactly its own length, is the corresponding slice of the
searched text, and begins with the opening brace. -/
theorem matchGroup3_spec (full : List Char) (pos2 : Nat) (g3 : List Char) (s e : Nat)
    (h : matchGroup3 full pos2 = some (g3, s, e)) :
    s = pos2 ∧ e = s + g3.length ∧ (full.drop s).take (e - s) = g3 ∧
      ∃ body, g3 = '\x7b' :: body := by
  simp only [matchGroup3] at h
  split at h
  · exact absurd h (by simp)
  next c t hd =>
    split at h
    next hc =>
      split at h
      · exact absurd h (by simp)
      next hb =>
        obtain ⟨hg, hs, he⟩ := by simpa using h
        have hc' : c = '\x7b' := by simpa using hc
        subst hs
        subst he
        subst hg
        have htake : List.takeWhile (fun ch => !(ch == '\n')) t =
            t.take (List.takeWhile (fun ch => !(ch == '\n')) t).length :=
          List.prefix_iff_eq_take.mp (List.takeWhile_prefix _)
        refine ⟨rfl, by simp [List.length_cons]; omega, ?_, ⟨_, rfl⟩⟩
        rw [hd]
        have hlen : pos2 + 1 + (List.takeWhile (fun ch => !(ch == '\n')) t).length - pos2 =
            (List.takeWhile (fun ch => !(ch == '\n')) t).length + 1 := by omega
        rw [hlen, List.take_succ_cons, hc', ← htake]
    · exact absurd h (by simp)

/-- The entity group reported by matchCore delimits the matching slice
of the searched text and starts with the opening brace. -/
theorem matchCore_group3 (full : List Char) (pos : Nat) (m : MatchGroups)
    (g3 : List Char) (s e : Nat)
    (h : matchCore full pos = some m) (hg : m.group3 = some (g3, s, e)) :
    e = s + g3.length ∧ (full.drop s).take (e - s) = g3 ∧
      ∃ body, g3 = '\x7b' :: body := by
  simp only [matchCore] at h
  split at h
  · exact absurd h (by simp)
  · obtain rfl := Option.some.inj h
    simp only at hg
    obtain ⟨_, he, hsub, hbody⟩ := matchGroup3_spec _ _ _ _ _ hg
    exact ⟨he, hsub, hbody⟩

/-- The entity group reported by the anchored search delimits the
matching slice of the input and starts with the opening brace. -/
theorem regexSearch_group3 (input : List Char) (m : MatchGroups)
    (g3 : List Char) (s e : Nat)
    (h : regexSearch input = some m) (hg : m.group3 = some (g3, s, e)) :
    e = s + g3.length ∧ (input.drop s).take (e - s) = g3 ∧
      ∃ body, g3 = '\x7b' :: body := by
  unfold regexSearch at h
  split at h
  · split at h
    · split at h
      next r hr => exact matchCore_group3 _ 1 _ _ _ _ (hr.trans h) hg
      next hr => exact matchCore_group3 _ 0 _ _ _ _ h hg
    · exact matchCore_group3 _ 0 _ _ _ _ h hg
  · exact absurd h (by simp)

/-- Stripping a list that starts with a non-whitespace character never
yields the empty list. -/
theorem pyStripChars_cons_ne_nil (c : Char) (t : List Char) (hc : pyIsSpace c = false) :
    pyStripChars (c :: t) ≠ [] := by
  unfold pyStripChars
  rw [List.dropWhile_cons, hc]
  simp only [Bool.false_eq_true, if_false]
  intro hcontra
  rw [List.reverse_eq_nil_iff, List.dropWhile_eq_nil_iff] at hcontra
  have hmem := hcontra c (by simp)
  rw [hc] at hmem
  exact absurd hmem (by simp)

/-- The decimal value of a digits-and-dots literal is nonnegative. -/
theorem ratOfDigitsDots_nonneg (cs : List Char) : 0 ≤ ratOfDigitsDots cs := by
  unfold ratOfDigitsDots
  positivity

/-- Every value the float model returns is nonnegative. -/
theorem pyFloatChars_nonneg (cs : List Char) (v : ℚ) (h : pyFloatChars cs = some v) :
    0 ≤ v := by
  unfold pyFloatChars at h
  split at h
  · exact (Option.some.inj h) ▸ ratOfDigitsDots_nonneg cs
  · exact absurd h (by simp)

/-- The parsed confidence is nonnegative in all three cases: the
default 1.0, the failure default 0.0, and a parsed decimal value. -/
theorem _parse_confidence_nonneg (o : Option String) :
    0 ≤ ( RegexInterpreter._parse_confidence o).1 := by
  cases o with
  | none => norm_num [RegexInterpreter._parse_confidence]
  | some s =>
    unfold RegexInterpreter._parse_confidence
    split
    · norm_num
    next s2 heq =>
      split
      next v h => simpa using pyFloatChars_nonneg _ v h
      next => simp

/-! ## Claim theorems -/

/-- C3 (amended).  For every transport outcome, the remote interpreter
parse either returns the 200-response body unchanged when that body is
not the JSON literal null, or — on any non-200 status, any transport
exception, or a 200 body decoding to null (Python None, which the code
cannot tell apart from its failure sentinel) — returns the fixed
default message with intent name empty, confidence 0.0, no entities
and empty text; being a total function of the outcome, parse lets no
exception escape. -/
theorem http_parse_cases (o : RasaNLUHttpInterpreter.HttpOutcome) :
    (∀ b, o = RasaNLUHttpInterpreter.HttpOutcome.response 200 b → b ≠ JsonValue.null →
      RasaNLUHttpInterpreter.parse o = b) ∧
    (o = RasaNLUHttpInterpreter.HttpOutcome.response 200 JsonValue.null →
      RasaNLUHttpInterpreter.parse o = RasaNLUHttpInterpreter.default_return) ∧
    (∀ st b, o = RasaNLUHttpInterpreter.HttpOutcome.response st b → st ≠ 200 →
      RasaNLUHttpInterpreter.parse o = RasaNLUHttpInterpreter.default_return) ∧
    (o = RasaNLUHttpInterpreter.HttpOutcome.exception →
      RasaNLUHttpInterpreter.parse o = RasaNLUHttpInterpreter.default_return) ∧
    RasaNLUHttpInterpreter.default_return =
      JsonValue.obj
        [(("intent"), JsonValue.obj
            [(("name"), JsonValue.str ""), (("confidence"), JsonValue.num 0)]),
         (("entities"), JsonValue.arr []),
         (("text"), JsonValue.str "")] := by
  refine ⟨?_, ?_, ?_, ?_, rfl⟩
  · rintro b rfl hb
    cases b
    case null => exact absurd rfl hb
    all_goals rfl
  · rintro rfl
    rfl
  · rintro st b rfl hst
    simp [RasaNLUHttpInterpreter.parse, RasaNLUHttpInterpreter._rasa_http_parse, hst]
  · rintro rfl
    rfl

/-- Witness for C3: a 200 list body is returned unchanged; a 200 null
body, a 404 response and a transport exception each yield the fixed
default message. -/
theorem http_parse_cases_witness :
    RasaNLUHttpInterpreter.parse
        (RasaNLUHttpInterpreter.HttpOutcome.response 200 (JsonValue.arr [])) =
      JsonValue.arr [] ∧
    RasaNLUHttpInterpreter.parse
        (RasaNLUHttpInterpreter.HttpOutcome.response 200 JsonValue.null) =
      RasaNLUHttpInterpreter.default_return ∧
    RasaNLUHttpInterpreter.parse
        (RasaNLUHttpInterpreter.HttpOutcome.response 404 (JsonValue.arr [])) =
      RasaNLUHttpInterpreter.default_return ∧
    RasaNLUHttpInterpreter.parse RasaNLUHttpInterpreter.HttpOutcome.exception =
      RasaNLUHttpInterpreter.default_return :=
  ⟨(http_parse_cases _).1 (JsonValue.arr []) rfl (fun h => JsonValue.noConfusion h),
   (http_parse_cases _).2.1 rfl,
   (http_parse_cases _).2.2.1 404 (JsonValue.arr []) rfl (by decide),
   (http_parse_cases _).2.2.2.1 rfl⟩

/-- Counterexample for C3: a 200 response whose body decodes to the
JSON literal null yields the fixed default message, not the body — the
decoded Python None falls into the failure path — refuting the claim
that every 200-response body is returned. -/
theorem http_parse_null_body_yields_default :
    RasaNLUHttpInterpreter.parse
        (RasaNLUHttpInterpreter.HttpOutcome.response 200 JsonValue.null) =
      RasaNLUHttpInterpreter.default_return ∧
    RasaNLUHttpInterpreter.default_return ≠ JsonValue.null := by
  refine ⟨rfl, ?_⟩
  simp [RasaNLUHttpInterpreter.default_return]

/-- C8.  The factory returns an interpreter instance unchanged; falls
back to the RegexInterpreter for a non-string argument, warning exactly
when the argument was non-null; for a string with no endpoint it
returns the local model interpreter when the path exists and otherwise
the RegexInterpreter with a warning; and with an endpoint it returns
the http interpreter bound to it, whatever the string was. -/
theorem create_interpreter_selection (endpoint : Option EndpointConfig)
    (path_exists : String → Bool) :
    (∀ i, NaturalLanguageInterpreter.create (CreateArg.interpreter i) endpoint path_exists =
      (i, [])) ∧
    (NaturalLanguageInterpreter.create CreateArg.pyNone endpoint path_exists =
      (Interpreter.regexInterpreter, [])) ∧
    (NaturalLanguageInterpreter.create CreateArg.otherValue endpoint path_exists =
      (Interpreter.regexInterpreter, [NaturalLanguageInterpreter.non_string_warning])) ∧
    (∀ s, endpoint = none → path_exists s = true →
      NaturalLanguageInterpreter.create (CreateArg.str s) endpoint path_exists =
        (Interpreter.rasaNLUInterpreter s, [])) ∧
    (∀ s, endpoint = none → path_exists s = false →
      NaturalLanguageInterpreter.create (CreateArg.str s) endpoint path_exists =
        (Interpreter.regexInterpreter, [NaturalLanguageInterpreter.no_local_model_warning])) ∧
    (∀ s e, endpoint = some e →
      NaturalLanguageInterpreter.create (CreateArg.str s) endpoint path_exists =
        (Interpreter.rasaNLUHttpInterpreter e, [])) := by
  refine ⟨fun i => rfl, rfl, rfl, ?_, ?_, ?_⟩
  · rintro s rfl hex
    simp [NaturalLanguageInterpreter.create, hex]
  · rintro s rfl hex
    simp [NaturalLanguageInterpreter.create, hex]
  · rintro s e rfl
    rfl

/-- Witness for C8: concrete selections for each branch. -/
theorem create_interpreter_selection_witness :
    NaturalLanguageInterpreter.create (CreateArg.str ("model")) none (fun _ => true) =
      (Interpreter.rasaNLUInterpreter ("model"), []) ∧
    NaturalLanguageInterpreter.create (CreateArg.str ("model")) none (fun _ => false) =
      (Interpreter.regexInterpreter, [NaturalLanguageInterpreter.no_local_model_warning]) ∧
    NaturalLanguageInterpreter.create (CreateArg.str ("model")) (some ⟨("http://x")⟩)
        (fun _ => false) =
      (Interpreter.rasaNLUHttpInterpreter ⟨("http://x")⟩, []) ∧
    NaturalLanguageInterpreter.create
        (CreateArg.interpreter Interpreter.regexInterpreter) none (fun _ => false) =
      (Interpreter.regexInterpreter, []) :=
  ⟨(create_interpreter_selection none (fun _ => true)).2.2.2.1 ("model") rfl rfl,
   (create_interpreter_selection none (fun _ => false)).2.2.2.2.1 ("model") rfl rfl,
   (create_interpreter_selection (some ⟨("http://x")⟩) (fun _ => false)).2.2.2.2.2 ("model")
     ⟨("http://x")⟩ rfl,
   (create_interpreter_selection none (fun _ => false)).1 Interpreter.regexInterpreter⟩

/-- A json.loads oracle that fails on every input (no entity text in
these examples ever reaches it, or the decode is meant to fail). -/
def loadsNone : String → Option JsonValue := fun _ => none

/-- Prepending the intent prefix makes the prefix test succeed. -/
theorem starts_after_prepend (t : String) :
    RegexInterpreter._starts_with_intent_prefix (INTENT_MESSAGE_PREFIX ++ t) = true := by
  have hd : (INTENT_MESSAGE_PREFIX ++ t).toList = '/' :: t.toList := by
    show (INTENT_MESSAGE_PREFIX ++ t).data = '/' :: t.data
    rw [String.data_append]
    rfl
  unfold RegexInterpreter._starts_with_intent_prefix
  rw [hd]
  simp [RegexInterpreter.allowed_prefixes, INTENT_MESSAGE_PREFIX, List.isPrefixOf]

/-- C4.  The message text built by the grammar fallback parse is the
raw text unchanged when it already starts with an intent prefix
character, and the prefix prepended to it otherwise; prefixing is
therefore idempotent. -/
theorem regex_parse_text_prefixing (loads : String → Option JsonValue) (t : String) :
    ( RegexInterpreter._starts_with_intent_prefix t = true →
      (RegexInterpreter.parse loads t).1.text = t) ∧
    ( RegexInterpreter._starts_with_intent_prefix t = false →
      (RegexInterpreter.parse loads t).1.text = INTENT_MESSAGE_PREFIX ++ t) ∧
    (RegexInterpreter.parse loads ((RegexInterpreter.parse loads t).1.text)).1.text =
      (RegexInterpreter.parse loads t).1.text := by
  have hparse : ∀ u : String, (RegexInterpreter.parse loads u).1.text =
      if RegexInterpreter._starts_with_intent_prefix u then u
      else INTENT_MESSAGE_PREFIX ++ u := fun u => rfl
  refine ⟨?_, ?_, ?_⟩
  · intro h
    rw [hparse, if_pos h]
  · intro h
    rw [hparse, if_neg (by simp [h])]
  · by_cases h : RegexInterpreter._starts_with_intent_prefix t
    · rw [hparse t, if_pos h, hparse t, if_pos h]
    · rw [hparse t, if_neg h, hparse (INTENT_MESSAGE_PREFIX ++ t),
        if_pos (starts_after_prepend t)]

/-- Witness for C4: a prefixed text is kept, an unprefixed one gains
the prefix. -/
theorem regex_parse_text_prefixing_witness :
    RegexInterpreter._starts_with_intent_prefix ("/greet") = true ∧
    (RegexInterpreter.parse loadsNone ("/greet")).1.text = ("/greet") ∧
    RegexInterpreter._starts_with_intent_prefix ("greet") = false ∧
    (RegexInterpreter.parse loadsNone ("greet")).1.text = ("/greet") :=
  ⟨rfl, (regex_parse_text_prefixing loadsNone ("/greet")).1 rfl, rfl,
   ((regex_parse_text_prefixing loadsNone ("greet")).2.1 rfl).trans rfl⟩

/-- C7 (amended).  For every input and every decode oracle, the
confidence produced by the grammar parser, and carried into the parsed
message, is nonnegative; it is not bounded by one (see the
counterexample), so only the lower half of the claimed interval holds. -/
theorem extract_confidence_nonneg (loads : String → Option JsonValue) (input : String) :
    0 ≤ (RegexInterpreter.extract_intent_and_entities loads input).1.2.1 ∧
    0 ≤ (RegexInterpreter.parse loads input).1.intent.confidence := by
  have h : 0 ≤ (RegexInterpreter.extract_intent_and_entities loads input).1.2.1 := by
    unfold RegexInterpreter.extract_intent_and_entities
    split
    · exact _parse_confidence_nonneg _
    · norm_num
  exact ⟨h, h⟩

/-- Counterexample for C7: an explicit confidence of 5 is carried
through unclamped, so the produced confidence exceeds one and the
claimed interval is violated. -/
theorem extract_confidence_exceeds_one :
    (RegexInterpreter.extract_intent_and_entities loadsNone ("greet@5")).1.2.1 = 5 ∧
    ¬((RegexInterpreter.extract_intent_and_entities loadsNone ("greet@5")).1.2.1 ≤ 1) := by
  have h1 : (RegexInterpreter.extract_intent_and_entities loadsNone ("greet@5")).1.2.1 =
      ratOfDigitsDots ['5'] := rfl
  have h2 : ratOfDigitsDots ['5'] = 5 := by
    have hshape : ratOfDigitsDots ['5'] =
        ((5 : ℕ) : ℚ) + ((0 : ℕ) : ℚ) / ((10 : ℚ) ^ (0 : ℕ)) := rfl
    rw [hshape]
    norm_num
  rw [h1, h2]
  norm_num

/-- Evaluation of the extraction when the pattern matches and the
entity group participates. -/
theorem extract_eq_g3some (loads : String → Option JsonValue) (input : String)
    (m : MatchGroups) (g : List Char) (s e : Nat)
    (hm : regexSearch input.toList = some m) (hg : m.group3 = some (g, s, e)) :
    RegexInterpreter.extract_intent_and_entities loads input =
      ((some (String.mk (pyStripChars m.group1)),
        ( RegexInterpreter._parse_confidence (m.group2.map String.mk)).1,
        ( RegexInterpreter._parse_parameters loads (some (String.mk g))
            (Int.ofNat s) (Int.ofNat e) input).1),
       ( RegexInterpreter._parse_confidence (m.group2.map String.mk)).2 ++
        ( RegexInterpreter._parse_parameters loads (some (String.mk g))
            (Int.ofNat s) (Int.ofNat e) input).2) := by
  unfold RegexInterpreter.extract_intent_and_entities
  rw [hm]
  dsimp only
  rw [hg]

/-- Evaluation of the extraction when the pattern matches and the
entity group does not participate. -/
theorem extract_eq_g3none (loads : String → Option JsonValue) (input : String)
    (m : MatchGroups)
    (hm : regexSearch input.toList = some m) (hg : m.group3 = none) :
    RegexInterpreter.extract_intent_and_entities loads input =
      ((some (String.mk (pyStripChars m.group1)),
        ( RegexInterpreter._parse_confidence (m.group2.map String.mk)).1,
        ( RegexInterpreter._parse_parameters loads none (-1) (-1) input).1),
       ( RegexInterpreter._parse_confidence (m.group2.map String.mk)).2 ++
        ( RegexInterpreter._parse_parameters loads none (-1) (-1) input).2) := by
  unfold RegexInterpreter.extract_intent_and_entities
  rw [hm]
  dsimp only
  rw [hg]

/-- A failed confidence parse yields confidence 0.0 and logs the
confidence warning. -/
theorem confidence_component_zero (o : Option String) (c : List Char)
    (ho : o = some (String.mk c))
    (hf : pyFloatChars ((pyStripChars c).drop 1) = none) :
    RegexInterpreter._parse_confidence o =
      (0, [RegexInterpreter.invalid_confidence_warning]) := by
  subst ho
  have hstep : RegexInterpreter._parse_confidence (some (String.mk c)) =
      match pyFloatChars ((pyStripChars c).drop 1) with
      | some v => (v, [])
      | none => (0, [RegexInterpreter.invalid_confidence_warning]) := rfl
  rw [hstep, hf]

/-- A failed or non-object JSON decode of a participating entity group
yields no entities and logs the parameters warning. -/
theorem parameters_component_empty (loads : String → Option JsonValue)
    (g : List Char) (si ei : Int) (input : String)
    (hbrace : ∃ body, g = '\x7b' :: body)
    (hfail : loads (String.mk g) = none ∨
      ∃ v, loads (String.mk g) = some v ∧ v.isObj = false) :
    RegexInterpreter._parse_parameters loads (some (String.mk g)) si ei input =
      ([], [RegexInterpreter.invalid_parameters_warning]) := by
  obtain ⟨body, rfl⟩ := hbrace
  have hne : ¬(pyStripChars (String.mk ('\x7b' :: body)).toList = []) :=
    pyStripChars_cons_ne_nil _ _ (by decide)
  have hstep : RegexInterpreter._parse_parameters loads
      (some (String.mk ('\x7b' :: body))) si ei input =
      if pyStripChars (String.mk ('\x7b' :: body)).toList = [] then ([], [])
      else
        match loads (String.mk ('\x7b' :: body)) with
        | some (JsonValue.obj kvs) => ( RegexInterpreter._create_entities kvs si ei, [])
        | some _ => ([], [RegexInterpreter.invalid_parameters_warning])
        | none => ([], [RegexInterpreter.invalid_parameters_warning]) := rfl
  rw [hstep, if_neg hne]
  rcases hfail with hnone | ⟨v, hv, hobj⟩
  · rw [hnone]
  · rw [hv]
    cases v
    case obj => exact absurd hobj (by simp [JsonValue.isObj])
    all_goals rfl

/-- A participating entity group whose text decodes to a JSON object
yields the entities built from the object with the group offsets. -/
theorem parameters_component_obj (loads : String → Option JsonValue)
    (g : List Char) (si ei : Int) (input : String)
    (kvs : List (String × JsonValue))
    (hbrace : ∃ body, g = '\x7b' :: body)
    (hl : loads (String.mk g) = some (JsonValue.obj kvs)) :
    RegexInterpreter._parse_parameters loads (some (String.mk g)) si ei input =
      ( RegexInterpreter._create_entities kvs si ei, []) := by
  obtain ⟨body, rfl⟩ := hbrace
  have hne : ¬(pyStripChars (String.mk ('\x7b' :: body)).toList = []) :=
    pyStripChars_cons_ne_nil _ _ (by decide)
  have hstep : RegexInterpreter._parse_parameters loads
      (some (String.mk ('\x7b' :: body))) si ei input =
      if pyStripChars (String.mk ('\x7b' :: body)).toList = [] then ([], [])
      else
        match loads (String.mk ('\x7b' :: body)) with
        | some (JsonValue.obj kvs) => ( RegexInterpreter._create_entities kvs si ei, [])
        | some _ => ([], [RegexInterpreter.invalid_parameters_warning])
        | none => ([], [RegexInterpreter.invalid_parameters_warning]) := rfl
  rw [hstep, if_neg hne, hl]

/-- C5.  For every input and decode oracle the extraction is a total
function with the documented degradations: an unmatchable line yields a
null intent, confidence 0.0 and no entities with a logged diagnostic; a
present but unparseable confidence group degrades to confidence 0.0
with a logged diagnostic; a present entity group whose text fails to
decode, or decodes to a non-object, degrades to no entities with a
logged diagnostic. -/
theorem extract_never_raises (loads : String → Option JsonValue) (input : String) :
    (regexSearch input.toList = none →
      RegexInterpreter.extract_intent_and_entities loads input =
        ((none, 0, []), [RegexInterpreter.failed_match_warning])) ∧
    (∀ m c, regexSearch input.toList = some m → m.group2 = some c →
      pyFloatChars ((pyStripChars c).drop 1) = none →
      (RegexInterpreter.extract_intent_and_entities loads input).1.2.1 = 0 ∧
        RegexInterpreter.invalid_confidence_warning ∈
          (RegexInterpreter.extract_intent_and_entities loads input).2) ∧
    (∀ m g s e, regexSearch input.toList = some m → m.group3 = some (g, s, e) →
      (loads (String.mk g) = none ∨
        ∃ v, loads (String.mk g) = some v ∧ v.isObj = false) →
      (RegexInterpreter.extract_intent_and_entities loads input).1.2.2 = [] ∧
        RegexInterpreter.invalid_parameters_warning ∈
          (RegexInterpreter.extract_intent_and_entities loads input).2) := by
  refine ⟨?_, ?_, ?_⟩
  · intro h
    unfold RegexInterpreter.extract_intent_and_entities
    rw [h]
  · intro m c hm hc hf
    have hconf := confidence_component_zero (m.group2.map String.mk) c
      (by rw [hc]; rfl) hf
    cases hg : m.group3 with
    | none =>
      rw [extract_eq_g3none loads input m hm hg, hconf]
      exact ⟨rfl, by simp⟩
    | some trip =>
      obtain ⟨g, s, e⟩ := trip
      rw [extract_eq_g3some loads input m g s e hm hg, hconf]
      exact ⟨rfl, by simp⟩
  · intro m g s e hm hg hfail
    obtain ⟨he, hsub, hbrace⟩ := regexSearch_group3 input.toList m g s e hm hg
    rw [extract_eq_g3some loads input m g s e hm hg,
      parameters_component_empty loads g (Int.ofNat s) (Int.ofNat e) input hbrace hfail]
    exact ⟨rfl, by simp⟩

/-- Witness for C5: the three degradations at concrete inputs. -/
theorem extract_never_raises_witness :
    RegexInterpreter.extract_intent_and_entities loadsNone ("@@") =
      ((none, 0, []), [RegexInterpreter.failed_match_warning]) ∧
    (RegexInterpreter.extract_intent_and_entities loadsNone ("greet@1.2.3")).1.2.1 = 0 ∧
    (RegexInterpreter.extract_intent_and_entities loadsNone ("greet\x7bx")).1.2.2 = [] := by
  refine ⟨(extract_never_raises loadsNone ("@@")).1 rfl, ?_, ?_⟩
  · exact ((extract_never_raises loadsNone ("greet@1.2.3")).2.1
      ⟨['g', 'r', 'e', 'e', 't'], some ['@', '1', '.', '2', '.', '3'], none⟩
      ['@', '1', '.', '2', '.', '3'] rfl rfl rfl).1
  · exact ((extract_never_raises loadsNone ("greet\x7bx")).2.2
      ⟨['g', 'r', 'e', 'e', 't'], none, some (['\x7b', 'x'], 5, 7)⟩
      ['\x7b', 'x'] 5 7 rfl rfl (Or.inl rfl)).1

/-- C6 (amended).  When the confidence group participates in the match
(an at sign followed by digits or dots) but its text does not parse as
a decimal number — for example two dots — the extraction still returns
the stripped intent name, with confidence 0.0.  A suffix such as
atsign-notanumber does not participate in the confidence group at all,
so it leaves the default confidence 1.0 (see the counterexample). -/
theorem extract_zero_confidence_on_unparseable (loads : String → Option JsonValue)
    (input : String) (m : MatchGroups) (c : List Char)
    (hm : regexSearch input.toList = some m) (hc : m.group2 = some c)
    (hf : pyFloatChars ((pyStripChars c).drop 1) = none) :
    (RegexInterpreter.extract_intent_and_entities loads input).1.1 =
      some (String.mk (pyStripChars m.group1)) ∧
    (RegexInterpreter.extract_intent_and_entities loads input).1.2.1 = 0 := by
  have hconf := confidence_component_zero (m.group2.map String.mk) c
    (by rw [hc]; rfl) hf
  cases hg : m.group3 with
  | none =>
    rw [extract_eq_g3none loads input m hm hg, hconf]
    exact ⟨rfl, rfl⟩
  | some trip =>
    obtain ⟨g, s, e⟩ := trip
    rw [extract_eq_g3some loads input m g s e hm hg, hconf]
    exact ⟨rfl, rfl⟩

/-- Witness for C6: an input whose confidence group participates but
holds two dots parses to intent greet with confidence 0.0. -/
theorem extract_zero_confidence_on_unparseable_witness :
    (RegexInterpreter.extract_intent_and_entities loadsNone ("greet@1.2.3")).1.1 =
      some ("greet") ∧
    (RegexInterpreter.extract_intent_and_entities loadsNone ("greet@1.2.3")).1.2.1 = 0 :=
  extract_zero_confidence_on_unparseable loadsNone ("greet@1.2.3")
    ⟨['g', 'r', 'e', 'e', 't'], some ['@', '1', '.', '2', '.', '3'], none⟩
    ['@', '1', '.', '2', '.', '3'] rfl rfl rfl

/-- Counterexample for C6: on the input greet-atsign-notanumber the
confidence part does not match the grammar, so it is absent rather than
present-but-unparseable, and the returned confidence is the default
1.0, not the claimed 0.0. -/
theorem extract_notanumber_confidence_one :
    RegexInterpreter.extract_intent_and_entities loadsNone ("greet@notanumber") =
      ((some ("greet"), 1, []), []) ∧ (1 : ℚ) ≠ 0 :=
  ⟨rfl, by norm_num⟩

/-- C9.  When the entity text of a matched line decodes to a JSON
object, every key and value pair produces one entity whose start and
end offsets are those of the whole bracketed entity group, which is
exactly the slice of the original line between those offsets; a key
mapped to a list of values produces one entity per value, in order,
sharing those offsets and the key as label. -/
theorem entities_share_bracket_offsets (loads : String → Option JsonValue)
    (input : String) (m : MatchGroups) (g : List Char) (s e : Nat)
    (kvs : List (String × JsonValue))
    (hm : regexSearch input.toList = some m) (hg : m.group3 = some (g, s, e))
    (hl : loads (String.mk g) = some (JsonValue.obj kvs)) :
    (RegexInterpreter.extract_intent_and_entities loads input).1.2.2 =
      kvs.flatMap (fun kv => (jsonValueList kv.2).map
        (fun value => ({ entity := kv.1, start := Int.ofNat s, end_ := Int.ofNat e,
                         value := value } : Entity))) ∧
    e = s + g.length ∧
    (input.toList.drop s).take (e - s) = g := by
  obtain ⟨he, hsub, hbrace⟩ := regexSearch_group3 input.toList m g s e hm hg
  refine ⟨?_, he, hsub⟩
  rw [extract_eq_g3some loads input m g s e hm hg,
    parameters_component_obj loads g (Int.ofNat s) (Int.ofNat e) input kvs hbrace hl]
  rfl

/-- A json.loads oracle decoding the two-valued name object of the
spec example. -/
def loadsAmySam : String → Option JsonValue := fun s =>
  if s = ("\x7b\"name\": [\"Amy\",\"Sam\"]\x7d") then
    some (JsonValue.obj
      [(("name"), JsonValue.arr [JsonValue.str ("Amy"), JsonValue.str ("Sam")])])
  else none

/-- Witness for C9: the spec example with two values for one key gives
two entities with the shared bracket offsets 5 and 28, and that span of
the line is the bracketed entity text. -/
theorem entities_share_bracket_offsets_witness :
    (RegexInterpreter.extract_intent_and_entities loadsAmySam
        ("greet\x7b\"name\": [\"Amy\",\"Sam\"]\x7d")).1.2.2 =
      [{ entity := ("name"), start := 5, end_ := 28, value := JsonValue.str ("Amy") },
       { entity := ("name"), start := 5, end_ := 28, value := JsonValue.str ("Sam") }] ∧
    (("greet\x7b\"name\": [\"Amy\",\"Sam\"]\x7d").toList.drop 5).take (28 - 5) =
      ("\x7b\"name\": [\"Amy\",\"Sam\"]\x7d").toList := by
  have h := entities_share_bracket_offsets loadsAmySam
    ("greet\x7b\"name\": [\"Amy\",\"Sam\"]\x7d")
    ⟨['g', 'r', 'e', 'e', 't'], none,
      some (("\x7b\"name\": [\"Amy\",\"Sam\"]\x7d").toList, 5, 28)⟩
    (("\x7b\"name\": [\"Amy\",\"Sam\"]\x7d").toList) 5 28
    [(("name"), JsonValue.arr [JsonValue.str ("Amy"), JsonValue.str ("Sam")])]
    rfl rfl rfl
  exact ⟨h.1.trans rfl, h.2.2⟩

/-- The latest action name is the name of the most recent executed
action event when there is one. -/
theorem latest_action_name_of_event (t : Tracker) (ev : ActionExecuted) (a : String)
    (hev : t.last_action_executed = some ev) (hname : ev.action_name = a) :
    t.latest_action_name = a := by
  unfold Tracker.latest_action_name
  rw [hev]
  exact hname

/-- C10.  When the latest executed action equals the non-null mapped
action (and is not the listen sentinel, so the attribution branch is
reached) but the executed-action event carries no policy attribution,
the prediction raises instead of returning a vector: the namespaced
suffix check calls endswith on the null attribution. -/
theorem predict_error_on_null_attribution (t : Tracker) (d : Domain) (a : String)
    (ev : ActionExecuted)
    (ha : MappingPolicy.mapped_action d t.latest_message_intent_name = some a)
    (hne : a ≠ ACTION_LISTEN_NAME)
    (hev : t.last_action_executed = some ev)
    (hname : ev.action_name = a)
    (hp : ev.policy = none) :
    MappingPolicy.predict_action_probabilities t d =
      Except.error ("AttributeError: NoneType has no attribute endswith") := by
  have hlat := latest_action_name_of_event t ev a hev hname
  simp only [MappingPolicy.predict_action_probabilities, ha, hlat, hev, hname, hp]
  rw [if_neg hne]
  simp

/-- Witness tracker for C10: the mapped action was just executed with a
null policy attribution. -/
def nullAttributionTracker : Tracker :=
  ⟨some ("hi"), some ⟨("utter_hi"), none⟩⟩

/-- Witness domain for C10. -/
def nullAttributionDomain : Domain :=
  ⟨[("action_listen"), ("utter_hi")], [(("hi"), ("utter_hi"))]⟩

/-- Witness for C10: at the concrete state the prediction raises. -/
theorem predict_error_on_null_attribution_witness :
    MappingPolicy.predict_action_probabilities nullAttributionTracker nullAttributionDomain =
      Except.error ("AttributeError: NoneType has no attribute endswith") :=
  predict_error_on_null_attribution nullAttributionTracker nullAttributionDomain
    ("utter_hi") ⟨("utter_hi"), none⟩ rfl (by decide) rfl rfl rfl

/-- C1 (amended).  When the latest executed action is not the listen
sentinel and equals the non-null mapped action for the latest intent,
the prediction inspects the attribution of the most recent executed
action event: an attribution equal to this policy identity, or ending
in underscore plus that identity, yields 1.0 at the listen sentinel
index (which must exist in the domain) and 0.0 elsewhere; an
attribution that is some other policy name yields the all-zero vector. -/
theorem predict_own_mapped_action_attribution (t : Tracker) (d : Domain) (a : String)
    (ev : ActionExecuted) (p : String)
    (ha : MappingPolicy.mapped_action d t.latest_message_intent_name = some a)
    (hne : a ≠ ACTION_LISTEN_NAME)
    (hev : t.last_action_executed = some ev)
    (hname : ev.action_name = a)
    (hp : ev.policy = some p) :
    ((p = MappingPolicy.MAPPING_POLICY_NAME ∨
        pyEndsWith p (String.append ("_") MappingPolicy.MAPPING_POLICY_NAME) = true) →
      ∀ li, d.index_for_action ACTION_LISTEN_NAME = some li →
      MappingPolicy.predict_action_probabilities t d =
        Except.ok ((List.replicate d.num_actions 0).set li 1, [])) ∧
    (p ≠ MappingPolicy.MAPPING_POLICY_NAME →
      pyEndsWith p (String.append ("_") MappingPolicy.MAPPING_POLICY_NAME) = false →
      MappingPolicy.predict_action_probabilities t d =
        Except.ok (List.replicate d.num_actions 0, [])) := by
  have hlat := latest_action_name_of_event t ev a hev hname
  constructor
  · intro hcase li hli
    by_cases hpn : p = MappingPolicy.MAPPING_POLICY_NAME
    · simp only [MappingPolicy.predict_action_probabilities, ha, hlat, hev, hname, hp,
        hpn, hli]
      rw [if_neg hne]
      simp
    · have hends : pyEndsWith p (String.append ("_") MappingPolicy.MAPPING_POLICY_NAME) =
          true := hcase.resolve_left hpn
      simp only [MappingPolicy.predict_action_probabilities, ha, hlat, hev, hname, hp,
        hends, hli]
      rw [if_neg hne]
      simp [hpn]
  · intro hpn hends
    simp only [MappingPolicy.predict_action_probabilities, ha, hlat, hev, hname, hp, hends]
    rw [if_neg hne]
    simp [hpn]

/-- Witness domain for C1: the intent triggers a plain action. -/
def ownActionDomain : Domain :=
  ⟨[("action_listen"), ("utter_hi")], [(("hi"), ("utter_hi"))]⟩

/-- Witness tracker for C1 where the mapped action was executed and
attributed to this policy itself. -/
def ownActionTrackerSelf : Tracker :=
  ⟨some ("hi"), some ⟨("utter_hi"), some ("MappingPolicy")⟩⟩

/-- Witness tracker for C1 where the mapped action was executed but
attributed to a different policy. -/
def ownActionTrackerOther : Tracker :=
  ⟨some ("hi"), some ⟨("utter_hi"), some ("OtherPolicy")⟩⟩

/-- Witness for C1: the self-attributed execution returns to listen,
the foreign-attributed one defers with the all-zero vector. -/
theorem predict_own_mapped_action_attribution_witness :
    MappingPolicy.predict_action_probabilities ownActionTrackerSelf ownActionDomain =
      Except.ok ((List.replicate 2 (0 : ℚ)).set 0 1, []) ∧
    MappingPolicy.predict_action_probabilities ownActionTrackerOther ownActionDomain =
      Except.ok (List.replicate 2 (0 : ℚ), []) :=
  ⟨(predict_own_mapped_action_attribution ownActionTrackerSelf ownActionDomain
      ("utter_hi") ⟨("utter_hi"), some ("MappingPolicy")⟩ ("MappingPolicy")
      rfl (by decide) rfl rfl rfl).1 (Or.inl rfl) 0 rfl,
   (predict_own_mapped_action_attribution ownActionTrackerOther ownActionDomain
      ("utter_hi") ⟨("utter_hi"), some ("OtherPolicy")⟩ ("OtherPolicy")
      rfl (by decide) rfl rfl rfl).2 (by decide) rfl⟩

/-- Counterexample domain for C1: the intent triggers the listen
sentinel itself. -/
def listenTriggerDomain : Domain :=
  ⟨[("action_listen"), ("utter_hi")], [(("hi"), ("action_listen"))]⟩

/-- Counterexample tracker for C1: the listen sentinel was just
executed, attributed to a different policy. -/
def listenTriggerTracker : Tracker :=
  ⟨some ("hi"), some ⟨("action_listen"), some ("SomePolicy")⟩⟩

/-- Counterexample for C1: the latest executed action equals the
non-null mapped action and the attribution belongs to a different
policy, yet the prediction is not the all-zero vector: because the
mapped action is the listen sentinel, the listen branch applies first
and re-predicts the trigger with 1.0, never reading the attribution. -/
theorem predict_listen_trigger_ignores_attribution :
    MappingPolicy.mapped_action listenTriggerDomain
        listenTriggerTracker.latest_message_intent_name = some (ACTION_LISTEN_NAME) ∧
    listenTriggerTracker.latest_action_name = ACTION_LISTEN_NAME ∧
    listenTriggerTracker.last_action_executed =
      some ⟨ACTION_LISTEN_NAME, some ("SomePolicy")⟩ ∧
    ("SomePolicy") ≠ MappingPolicy.MAPPING_POLICY_NAME ∧
    pyEndsWith ("SomePolicy")
      (String.append ("_") MappingPolicy.MAPPING_POLICY_NAME) = false ∧
    MappingPolicy.predict_action_probabilities listenTriggerTracker listenTriggerDomain =
      Except.ok ([1, 0], []) ∧
    ([1, 0] : List ℚ) ≠ List.replicate listenTriggerDomain.num_actions 0 :=
  ⟨rfl, rfl, rfl, by decide, rfl, rfl, by
    have hrep : List.replicate listenTriggerDomain.num_actions (0 : ℚ) = [0, 0] := rfl
    rw [hrep]
    simp⟩

/-- C2 (amended).  When the latest executed action is the listen
sentinel, the prediction resolves the mapped action for the latest
intent (restart and back map to the built-in actions, otherwise the
domain trigger, possibly null) and returns: 1.0 at the mapped action
index and 0.0 elsewhere when the mapped action is non-null, non-empty
and has an index; the all-zero vector plus the logged warning when the
non-null, non-empty mapped action has no index in the domain; and the
all-zero vector with no warning when the mapped action is null or the
empty string (which the code treats as no mapping). -/
theorem predict_after_listen_cases (t : Tracker) (d : Domain)
    (h : t.latest_action_name = ACTION_LISTEN_NAME) :
    (∀ a i, MappingPolicy.mapped_action d t.latest_message_intent_name = some a →
      a ≠ "" → d.index_for_action a = some i →
      MappingPolicy.predict_action_probabilities t d =
        Except.ok ((List.replicate d.num_actions 0).set i 1, [])) ∧
    (∀ a, MappingPolicy.mapped_action d t.latest_message_intent_name = some a →
      a ≠ "" → d.index_for_action a = none →
      MappingPolicy.predict_action_probabilities t d =
        Except.ok (List.replicate d.num_actions 0,
          [MappingPolicy.unknown_action_warning])) ∧
    ((MappingPolicy.mapped_action d t.latest_message_intent_name = none ∨
      MappingPolicy.mapped_action d t.latest_message_intent_name = some ("")) →
      MappingPolicy.predict_action_probabilities t d =
        Except.ok (List.replicate d.num_actions 0, [])) := by
  refine ⟨?_, ?_, ?_⟩
  · intro a i ha hne hi
    simp only [MappingPolicy.predict_action_probabilities, ha, h]
    simp [pyTruthy, hne, hi]
  · intro a ha hne hi
    simp only [MappingPolicy.predict_action_probabilities, ha, h]
    simp [pyTruthy, hne, hi]
  · rintro (ha | ha) <;>
      simp only [MappingPolicy.predict_action_probabilities, ha, h] <;>
      simp [pyTruthy]

/-- Witness tracker for C2: after listen with the built-in restart
intent. -/
def restartTracker : Tracker := ⟨some ("restart"), none⟩

/-- Witness domain for C2, holding the built-in restart action. -/
def restartDomain : Domain := ⟨[("action_listen"), ("action_restart")], []⟩

/-- Witness for C2: the restart intent after listen predicts the
built-in restart action with probability 1.0. -/
theorem predict_after_listen_cases_witness :
    MappingPolicy.predict_action_probabilities restartTracker restartDomain =
      Except.ok ((List.replicate 2 (0 : ℚ)).set 1 1, []) :=
  (predict_after_listen_cases restartTracker restartDomain rfl).1
    ACTION_RESTART_NAME 1 rfl (by decide) rfl

/-- Counterexample domain for C2: the intent triggers the empty string,
which is itself among the action names, at index 0. -/
def emptyTriggerDomain : Domain := ⟨[(""), ("action_listen")], [(("hi"), (""))]⟩

/-- Counterexample tracker for C2: after listen with that intent. -/
def emptyTriggerTracker : Tracker := ⟨some ("hi"), none⟩

/-- Counterexample for C2: the mapped action is non-null (the empty
string) and has a valid index in the domain, yet the prediction is the
all-zero vector rather than 1.0 at that index: the Python truthiness
test on the mapped action treats the empty string like null. -/
theorem predict_after_listen_empty_trigger_zeros :
    emptyTriggerTracker.latest_action_name = ACTION_LISTEN_NAME ∧
    MappingPolicy.mapped_action emptyTriggerDomain
        emptyTriggerTracker.latest_message_intent_name = some ("") ∧
    emptyTriggerDomain.index_for_action ("") = some 0 ∧
    MappingPolicy.predict_action_probabilities emptyTriggerTracker emptyTriggerDomain =
      Except.ok ([0, 0], []) ∧
    ([0, 0] : List ℚ) ≠ (List.replicate emptyTriggerDomain.num_actions (0 : ℚ)).set 0 1 :=
  ⟨rfl, rfl, rfl, rfl, by
    have hrep : (List.replicate emptyTriggerDomain.num_actions (0 : ℚ)).set 0 1 =
        [1, 0] := rfl
    rw [hrep]
    simp⟩

/-- Counterexample tracker for C10: the listen sentinel, which the
intent maps to, was just executed with a null attribution. -/
def listenTriggerNullTracker : Tracker :=
  ⟨some ("hi"), some ⟨("action_listen"), none⟩⟩

/-- Counterexample for C10: the latest executed action equals the
non-null mapped action and the attribution is null, yet no error is
raised: the mapped action is the listen sentinel, so the listen branch
applies first and returns a vector without reading the attribution. -/
theorem predict_null_attribution_listen_trigger_no_error :
    MappingPolicy.mapped_action listenTriggerDomain
        listenTriggerNullTracker.latest_message_intent_name =
      some (ACTION_LISTEN_NAME) ∧
    listenTriggerNullTracker.latest_action_name = ACTION_LISTEN_NAME ∧
    listenTriggerNullTracker.last_action_executed =
      some ⟨ACTION_LISTEN_NAME, none⟩ ∧
    MappingPolicy.predict_action_probabilities listenTriggerNullTracker
        listenTriggerDomain =
      Except.ok ([1, 0], []) :=
  ⟨rfl, rfl, rfl, rfl⟩
